import Mathlib

/-!
Verification of the pms700x particulate-sensor driver (src/lib.rs).

The driver is embedded shallowly: the serial transport is a list of read
events plus an output byte list, machine bytes and u8/u16 fields are `Nat`
with explicit `% 256` / `% 65536` where the Rust types truncate, and a Rust
panic (an out-of-bounds array index) is an explicit `Outcome.panicked`
result.  Every definition follows the corresponding Rust item line by line.
-/

/-- Result of one non-blocking driver step, mirroring nb::Result in the
source: completion, would-block, a transport error (carried as a numeric
code), or a Rust panic, used to model an out-of-bounds index into the
reader's fixed 32-byte buffer. -/
inductive Outcome where
  | ok
  | wouldBlock
  | err (e : Nat)
  | panicked
deriving DecidableEq

/-- One result of polling serial.read(): a byte, would-block, or a transport
error. -/
inductive ReadEvent where
  | byte (b : Nat)
  | block
  | err (e : Nat)
deriving DecidableEq

/-- The closed command set of the source, with None the "no command in
flight" sentinel. -/
inductive Command where
  | none
  | readPassive
  | setMode
  | setSleep
deriving DecidableEq

/-- Wire code of each command (the repr(u8) discriminants in the source). -/
def Command.code : Command → Nat
  | Command.none => 0
  | Command.readPassive => 0xe2
  | Command.setMode => 0xe1
  | Command.setSleep => 0xe4

/-- The parsed measurement record: twelve u16 fields, SensorData in the
source. -/
structure SensorData where
  pm10 : Nat
  pm25 : Nat
  pm100 : Nat
  pm10_atmos : Nat
  pm25_atmos : Nat
  pm100_atmos : Nat
  pm03_count : Nat
  pm05_count : Nat
  pm10_count : Nat
  pm25_count : Nat
  pm50_count : Nat
  pm100_count : Nat
deriving DecidableEq

/-- SensorData has u16 fields in the source; this is the corresponding bound
on the Nat embedding. -/
def u16Sensor (d : SensorData) : Prop :=
  d.pm10 < 65536 ∧ d.pm25 < 65536 ∧ d.pm100 < 65536 ∧
  d.pm10_atmos < 65536 ∧ d.pm25_atmos < 65536 ∧ d.pm100_atmos < 65536 ∧
  d.pm03_count < 65536 ∧ d.pm05_count < 65536 ∧ d.pm10_count < 65536 ∧
  d.pm25_count < 65536 ∧ d.pm50_count < 65536 ∧ d.pm100_count < 65536

instance (d : SensorData) : Decidable (u16Sensor d) := by
  unfold u16Sensor; infer_instance

/-- SensorData::from_raw: each field is the big-endian u16 at a fixed pair of
offsets 4..27 of the 32-byte response buffer (u16::from_be_bytes [hi, lo] is
hi * 256 + lo). -/
def SensorData.from_raw (raw : Nat → Nat) : SensorData :=
  ⟨raw 4 * 256 + raw 5, raw 6 * 256 + raw 7, raw 8 * 256 + raw 9,
   raw 10 * 256 + raw 11, raw 12 * 256 + raw 13, raw 14 * 256 + raw 15,
   raw 16 * 256 + raw 17, raw 18 * 256 + raw 19, raw 20 * 256 + raw 21,
   raw 22 * 256 + raw 23, raw 24 * 256 + raw 25, raw 26 * 256 + raw 27⟩

/-- SensorReader state: cursor, declared length, and the 32-byte buffer,
embedded as a total function read only below index 32. -/
structure SensorReader where
  byte_offset : Nat
  length : Nat
  data : Nat → Nat

/-- SensorReader::default(): zero cursor, zero length, zeroed buffer. -/
def SensorReader.default : SensorReader := ⟨0, 0, fun _ => 0⟩

/-- One iteration of SensorReader::fill_data after a byte was read from the
serial port.  The source stores the byte at self.data[offset] before matching
on (offset, byte); an offset of 32 or more therefore indexes out of the
[u8; 32] buffer and panics, which this embedding reports as
`Outcome.panicked` (the post-panic state is unobservable in Rust, so the
pre-step state is returned with it).  The match arms are translated in
source order; note that offset 1 with a byte other than 0x4d falls through
to the final catch-all arm of the Rust match, not to a reset.  In that
catch-all the comparison offset >= self.length + 3 adds two u8 values: the
`% 256` models the release-build wrap-around (a debug build would panic on
the add itself), so a stale stored length of 253 or 254 — left behind by an
oversize length byte — makes the comparison wrap and spuriously complete a
frame at an offset-1 mismatch; Active-mode read then panics inside
validate_data on such frames. -/
def SensorReader.step (r : SensorReader) (b : Nat) : SensorReader × Outcome :=
  let o := r.byte_offset
  if o < 32 then
    let r1 : SensorReader := ⟨o + 1, r.length, fun i => if i = o then b else r.data i⟩
    if o = 0 then
      if b = 0x42 then (r1, Outcome.wouldBlock)
      else (⟨0, r1.length, r1.data⟩, Outcome.wouldBlock)
    else if o = 1 then
      if b = 0x4d then (r1, Outcome.wouldBlock)
      else if (r1.length + 3) % 256 ≤ o then (⟨0, r1.length, r1.data⟩, Outcome.ok)
      else (r1, Outcome.wouldBlock)
    else if o = 2 then
      if b = 0 then (r1, Outcome.wouldBlock)
      else (⟨0, r1.length, r1.data⟩, Outcome.wouldBlock)
    else if o = 3 then
      if 32 < b then (⟨0, b, r1.data⟩, Outcome.wouldBlock)
      else (⟨r1.byte_offset, b, r1.data⟩, Outcome.wouldBlock)
    else
      if (r1.length + 3) % 256 ≤ o then (⟨0, r1.length, r1.data⟩, Outcome.ok)
      else (r1, Outcome.wouldBlock)
  else (r, Outcome.panicked)

/-- Feed a list of bytes to the reader one fill_data call per byte,
collecting each call's outcome; a panic aborts the run. -/
def runReader : SensorReader → List Nat → SensorReader × List Outcome
  | r, [] => (r, [])
  | r, b :: bs =>
    let s := r.step b
    if s.2 = Outcome.panicked then (s.1, [Outcome.panicked])
    else
      let rest := runReader s.1 bs
      (rest.1, s.2 :: rest.2)

/-- Sum of the first n buffered bytes, modelling
data.iter().take(n) summed over u16 (iterating the 32-byte buffer, so a sum
of at most 32 bytes, which never reaches 2^16: Nat addition is exact). -/
def sumData (f : Nat → Nat) : Nat → Nat
  | 0 => 0
  | n + 1 => sumData f n + f n

/-- SensorReader::validate_data: the u16 sum of the first length + 2 buffered
bytes (iter().take caps the iteration at the 32 buffer bytes and cannot
panic) must equal the big-endian u16 read at offsets length + 2 and
length + 3.  Those two indexes are unchecked in the source: as soon as
length + 3 reaches past the 32-byte buffer (length 29 or more, reachable
through the stale-length spurious completion modelled in step) the indexing
panics, reported here as Option.none. -/
def SensorReader.validate_data (r : SensorReader) : Option Bool :=
  let sum := sumData r.data (min (r.length + 2) 32)
  if r.length + 3 < 32 then
    some (r.data (r.length + 2) * 256 + r.data (r.length + 3) == sum)
  else Option.none

/-- CommandWriter state: command, payload bytes, cursor, checksum bytes. -/
structure CommandWriter where
  command : Command
  data_high : Nat
  data_low : Nat
  state : Nat
  verify_high : Nat
  verify_low : Nat
deriving DecidableEq

/-- CommandWriter::default(). -/
def CommandWriter.default : CommandWriter := ⟨Command.none, 0, 0, 0, 0, 0⟩

/-- CommandWriter::new: data.to_le_bytes() gives [data % 256, data / 256] for
a u16, and the u16 checksum is the sum of both magic bytes, the command code
and both payload bytes (it never exceeds 16 bits, the % 65536 records the u16
type). -/
def CommandWriter.new (command : Command) (data : Nat) : CommandWriter :=
  let data_low := data % 256
  let data_high := data / 256 % 256
  let verify := (0x42 + 0x4d + command.code + data_low + data_high) % 65536
  ⟨command, data_high, data_low, 0, verify / 256 % 256, verify % 256⟩

/-- CommandWriter::write against a transport that accepts every byte: emit
the byte selected by the cursor (the source's unreachable!() arm cannot be
taken, as the match is guarded by state < 7), advance, and report Ok exactly
when the cursor has reached 7. -/
def CommandWriter.write (w : CommandWriter) (out : List Nat) :
    CommandWriter × List Nat × Outcome :=
  let p :=
    if w.state < 7 then
      let b :=
        if w.state = 0 then 0x42
        else if w.state = 1 then 0x4d
        else if w.state = 2 then w.command.code
        else if w.state = 3 then w.data_high
        else if w.state = 4 then w.data_low
        else if w.state = 5 then w.verify_high
        else w.verify_low
      ({ w with state := w.state + 1 }, out ++ [b])
    else (w, out)
  if p.1.state = 7 then (p.1, p.2, Outcome.ok) else (p.1, p.2, Outcome.wouldBlock)

/-- Repeatedly call CommandWriter::write (with fuel) until the cursor reaches
7, as nb::block! does around send_command's writer phase. -/
def CommandWriter.driveAll : Nat → CommandWriter → List Nat → CommandWriter × List Nat
  | 0, w, out => (w, out)
  | n + 1, w, out =>
    if w.state = 7 then (w, out)
    else
      let p := w.write out
      CommandWriter.driveAll n p.1 p.2.1

/-- The byte-oriented serial transport: a list of pending read results and
the bytes written so far. -/
structure Serial where
  input : List ReadEvent
  output : List Nat
deriving DecidableEq

/-- SensorReader::fill_data: read one byte from the serial port (propagating
would-block and transport errors without touching reader state), then run one
step of the collector. -/
def SensorReader.fill_data (r : SensorReader) (s : Serial) :
    SensorReader × Serial × Outcome :=
  match s.input with
  | [] => (r, s, Outcome.wouldBlock)
  | ev :: rest =>
    match ev with
    | ReadEvent.block => (r, ⟨rest, s.output⟩, Outcome.wouldBlock)
    | ReadEvent.err e => (r, ⟨rest, s.output⟩, Outcome.err e)
    | ReadEvent.byte b =>
      let p := r.step b
      (p.1, ⟨rest, s.output⟩, p.2)

/-- Driver state: the owned CommandWriter and SensorReader (the mode tag and
the transport handle are threaded separately). -/
structure Pms700X where
  command_writer : CommandWriter
  reader : SensorReader

/-- Pms700X::new with a Default writer and reader. -/
def pmsInit : Pms700X := ⟨CommandWriter.default, SensorReader.default⟩

/-- Pms700X::send_command: start a fresh CommandWriter only when no command
is in flight, drive one write step (flush always succeeds in the model), and
when an answer is expected drive one fill_data step; only when everything
completed is the command slot reset to None and Ok returned. -/
def Pms700X.send_command (p : Pms700X) (s : Serial) (command : Command)
    (data : Nat) (expect_answer : Bool) : Pms700X × Serial × Outcome :=
  let p1 :=
    if p.command_writer.command = Command.none then
      { p with command_writer := CommandWriter.new command data }
    else p
  let wr := p1.command_writer.write s.output
  let p2 := { p1 with command_writer := wr.1 }
  let s2 : Serial := ⟨s.input, wr.2.1⟩
  match wr.2.2 with
  | Outcome.ok =>
    if expect_answer then
      let fr := p2.reader.fill_data s2
      let p3 := { p2 with reader := fr.1 }
      match fr.2.2 with
      | Outcome.ok =>
        ({ p3 with command_writer := { p3.command_writer with command := Command.none } },
         fr.2.1, Outcome.ok)
      | o => (p3, fr.2.1, o)
    else
      ({ p2 with command_writer := { p2.command_writer with command := Command.none } },
       s2, Outcome.ok)
  | o => (p2, s2, o)

/-- Result of Pms700X::read: a decoded measurement, would-block, a transport
error, or a panic propagated from the reader. -/
inductive ReadOutcome where
  | ok (d : SensorData)
  | wouldBlock
  | err (e : Nat)
  | panicked
deriving DecidableEq

/-- Pms700X::<Active>::read: one fill_data step; on frame completion decode
only if validate_data holds, report would-block when it fails, and propagate
the panic when the validate_data call itself indexes out of bounds. -/
def Pms700X.read_active (p : Pms700X) (s : Serial) :
    Pms700X × Serial × ReadOutcome :=
  let fr := p.reader.fill_data s
  let p1 := { p with reader := fr.1 }
  match fr.2.2 with
  | Outcome.ok =>
    match fr.1.validate_data with
    | some true => (p1, fr.2.1, ReadOutcome.ok (SensorData.from_raw fr.1.data))
    | some false => (p1, fr.2.1, ReadOutcome.wouldBlock)
    | Option.none => (p1, fr.2.1, ReadOutcome.panicked)
  | Outcome.wouldBlock => (p1, fr.2.1, ReadOutcome.wouldBlock)
  | Outcome.err e => (p1, fr.2.1, ReadOutcome.err e)
  | Outcome.panicked => (p1, fr.2.1, ReadOutcome.panicked)

/-- Pms700X::<Passive>::read: send ReadPassive expecting an answer, then
decode straight from the reader buffer; the source performs no checksum check
on this path. -/
def Pms700X.read_passive (p : Pms700X) (s : Serial) :
    Pms700X × Serial × ReadOutcome :=
  let sc := p.send_command s Command.readPassive 0 true
  match sc.2.2 with
  | Outcome.ok => (sc.1, sc.2.1, ReadOutcome.ok (SensorData.from_raw sc.1.reader.data))
  | Outcome.wouldBlock => (sc.1, sc.2.1, ReadOutcome.wouldBlock)
  | Outcome.err e => (sc.1, sc.2.1, ReadOutcome.err e)
  | Outcome.panicked => (sc.1, sc.2.1, ReadOutcome.panicked)

/-- Retry a read while it reports would-block, with fuel, as nb::block! does
in the examples. -/
def loopRead (f : Pms700X → Serial → Pms700X × Serial × ReadOutcome) :
    Nat → Pms700X → Serial → Pms700X × Serial × ReadOutcome
  | 0, p, s => (p, s, ReadOutcome.wouldBlock)
  | n + 1, p, s =>
    let r := f p s
    match r.2.2 with
    | ReadOutcome.wouldBlock => loopRead f n r.1 r.2.1
    | _ => r

/-- The 7-byte command frame as §6 of the spec lays it out: both magic bytes,
the command code, the big-endian payload, and the big-endian 16-bit
wrap-around checksum of the first five bytes. -/
def commandFrameBytes (command : Command) (data : Nat) : List Nat :=
  let chk := (0x42 + 0x4d + command.code + data / 256 + data % 256) % 65536
  [0x42, 0x4d, command.code, data / 256, data % 256, chk / 256, chk % 256]

/-- Wire code back to the command it encodes (None has no wire frame). -/
def decodeCommandCode (c : Nat) : Option Command :=
  if c = 0xe2 then some Command.readPassive
  else if c = 0xe1 then some Command.setMode
  else if c = 0xe4 then some Command.setSleep
  else Option.none

/-- Modelled from the spec: decoding a 7-byte command frame back to (command,
payload) — the repository has no decoder, so this follows the outgoing wire
format of §6: check both magic bytes and the big-endian trailing checksum,
then read the command code and the big-endian payload. -/
def decodeCommandFrame (bs : List Nat) : Option (Command × Nat) :=
  match bs with
  | [a, b, c, dh, dl, ch, cl] =>
    if a = 0x42 ∧ b = 0x4d ∧ ch * 256 + cl = (a + b + c + dh + dl) % 65536 then
      match decodeCommandCode c with
      | some cmd => some (cmd, dh * 256 + dl)
      | Option.none => Option.none
    else Option.none
  | _ => Option.none

/-- The 26 data bytes of a measurement frame: the twelve fields big-endian in
the fixed order of §6, then the two reserved bytes the 0x1c-length frame of
the sensor carries after them. -/
def fieldBytes (d : SensorData) : List Nat :=
  [d.pm10 / 256, d.pm10 % 256, d.pm25 / 256, d.pm25 % 256,
   d.pm100 / 256, d.pm100 % 256, d.pm10_atmos / 256, d.pm10_atmos % 256,
   d.pm25_atmos / 256, d.pm25_atmos % 256, d.pm100_atmos / 256, d.pm100_atmos % 256,
   d.pm03_count / 256, d.pm03_count % 256, d.pm05_count / 256, d.pm05_count % 256,
   d.pm10_count / 256, d.pm10_count % 256, d.pm25_count / 256, d.pm25_count % 256,
   d.pm50_count / 256, d.pm50_count % 256, d.pm100_count / 256, d.pm100_count % 256,
   0, 0]

/-- Checksum of a measurement frame: the 16-bit sum of the 30 bytes before
the checksum pair (it stays far below 2^16 for u16 fields). -/
def frameChecksum (d : SensorData) : Nat :=
  0x42 + 0x4d + 0 + 0x1c + (fieldBytes d).sum

/-- The declared-length-many bytes following the length byte: data bytes then
the big-endian checksum. -/
def frameBody (d : SensorData) : List Nat :=
  fieldBytes d ++ [frameChecksum d / 256, frameChecksum d % 256]

/-- Modelled from the spec: the 32-byte measurement response frame of §6 (the
repository only parses frames, it does not build them): magic pair, zero
length high byte, declared length 0x1c covering data plus checksum, the
twelve fields big-endian at offsets 4..27, two reserved bytes, and the
big-endian checksum of the 30 preceding bytes. -/
def encodeFrame (d : SensorData) : List Nat :=
  [0x42, 0x4d, 0, 0x1c] ++ frameBody d

/-!
Step lemmas: one fill_data byte step in each regime of the collector.
-/

/-- At offset 0 a byte other than the first magic byte is stored at index 0
and discarded: the cursor stays 0. -/
theorem step_scan_miss (len : Nat) (f : Nat → Nat) (b : Nat) (hb : b ≠ 0x42) :
    SensorReader.step ⟨0, len, f⟩ b
      = (⟨0, len, fun i => if i = 0 then b else f i⟩, Outcome.wouldBlock) := by
  simp [SensorReader.step, hb]

/-- At offset 0 the first magic byte advances the cursor. -/
theorem step_magic1 (len : Nat) (f : Nat → Nat) :
    SensorReader.step ⟨0, len, f⟩ 0x42
      = (⟨1, len, fun i => if i = 0 then 0x42 else f i⟩, Outcome.wouldBlock) := by
  simp [SensorReader.step]

/-- At offset 1 the second magic byte advances the cursor. -/
theorem step_magic2 (len : Nat) (f : Nat → Nat) :
    SensorReader.step ⟨1, len, f⟩ 0x4d
      = (⟨2, len, fun i => if i = 1 then 0x4d else f i⟩, Outcome.wouldBlock) := by
  simp [SensorReader.step]

/-- At offset 2 a zero length high byte advances the cursor. -/
theorem step_lenhigh (len : Nat) (f : Nat → Nat) :
    SensorReader.step ⟨2, len, f⟩ 0
      = (⟨3, len, fun i => if i = 2 then 0 else f i⟩, Outcome.wouldBlock) := by
  simp [SensorReader.step]

/-- At offset 3 a declared length of at most 32 is stored and the cursor
advances. -/
theorem step_length_ok (len : Nat) (f : Nat → Nat) (b : Nat) (hb : b ≤ 32) :
    SensorReader.step ⟨3, len, f⟩ b
      = (⟨4, b, fun i => if i = 3 then b else f i⟩, Outcome.wouldBlock) := by
  simp [SensorReader.step, show ¬ 32 < b by omega]

/-- At offset 3 a declared length above 32 is stored but the cursor resets
to 0. -/
theorem step_length_oversize (len : Nat) (f : Nat → Nat) (b : Nat) (hb : 32 < b) :
    SensorReader.step ⟨3, len, f⟩ b
      = (⟨0, b, fun i => if i = 3 then b else f i⟩, Outcome.wouldBlock) := by
  simp [SensorReader.step, hb]

/-- A payload byte strictly before the completion offset is buffered and the
cursor advances (the length bound keeps the u8 sum length + 3 from
wrapping). -/
theorem step_payload (o len : Nat) (f : Nat → Nat) (b : Nat)
    (h4 : 4 ≤ o) (hlt : o < len + 3) (h32 : o < 32) (hl : len ≤ 28) :
    SensorReader.step ⟨o, len, f⟩ b
      = (⟨o + 1, len, fun i => if i = o then b else f i⟩, Outcome.wouldBlock) := by
  simp [SensorReader.step, h32, show ¬ o = 0 by omega, show ¬ o = 1 by omega,
    show ¬ o = 2 by omega, show ¬ o = 3 by omega,
    show ¬ (len + 3) % 256 ≤ o by omega]

/-- The byte at the completion offset is buffered, the cursor resets and the
step reports a complete frame. -/
theorem step_complete (o len : Nat) (f : Nat → Nat) (b : Nat)
    (h4 : 4 ≤ o) (hge : len + 3 ≤ o) (h32 : o < 32) :
    SensorReader.step ⟨o, len, f⟩ b
      = (⟨0, len, fun i => if i = o then b else f i⟩, Outcome.ok) := by
  simp [SensorReader.step, h32, show (len + 3) % 256 ≤ o by omega,
    show ¬ o = 0 by omega, show ¬ o = 1 by omega,
    show ¬ o = 2 by omega, show ¬ o = 3 by omega]

/-- At offset 32 the store into the 32-byte buffer is out of bounds: the
step panics. -/
theorem step_panics (o len : Nat) (f : Nat → Nat) (b : Nat) (h32 : 32 ≤ o) :
    SensorReader.step ⟨o, len, f⟩ b = (⟨o, len, f⟩, Outcome.panicked) := by
  simp [SensorReader.step, show ¬ o < 32 by omega]

/-- Feeding the body of a frame (the declared-length-many bytes that follow
the length byte) from any mid-frame state: every byte before the completion
offset is buffered with a would-block outcome, the last byte completes the
frame and resets the cursor, and the buffer outside the written window is
untouched. -/
theorem runReader_body (body : List Nat) :
    ∀ (o len : Nat) (f : Nat → Nat), 4 ≤ o → len ≤ 28 → o + body.length = len + 4 →
    body ≠ [] →
    (runReader ⟨o, len, f⟩ body).2
        = List.replicate (body.length - 1) Outcome.wouldBlock ++ [Outcome.ok] ∧
    (runReader ⟨o, len, f⟩ body).1.byte_offset = 0 ∧
    (runReader ⟨o, len, f⟩ body).1.length = len ∧
    (∀ i, i < o → (runReader ⟨o, len, f⟩ body).1.data i = f i) ∧
    (∀ i, o ≤ i → i < len + 4 →
      (runReader ⟨o, len, f⟩ body).1.data i = body.getD (i - o) 0) ∧
    (∀ i, len + 4 ≤ i → (runReader ⟨o, len, f⟩ body).1.data i = f i) := by
  induction body with
  | nil => intro o len f _ _ _ hne; exact absurd rfl hne
  | cons b bs ih =>
    intro o len f h4 hlen hsum _
    by_cases hbs : bs = []
    · subst hbs
      have ho : o = len + 3 := by simp only [List.length_cons, List.length_nil] at hsum; omega
      have hstep := step_complete o len f b h4 (by omega) (by omega)
      have hrun : runReader ⟨o, len, f⟩ [b]
          = (⟨0, len, fun i => if i = o then b else f i⟩, [Outcome.ok]) := by
        simp [runReader, hstep]
      refine ⟨by simp [hrun], by simp [hrun], by simp [hrun], ?_, ?_, ?_⟩
      · intro i hi
        simp only [hrun]
        exact if_neg (by omega)
      · intro i hio hi
        have hieq : i = o := by omega
        subst hieq
        simp [hrun]
      · intro i hi
        simp only [hrun]
        exact if_neg (by omega)
    · have hbl : 1 ≤ bs.length := List.length_pos.mpr hbs
      have hlt : o < len + 3 := by simp only [List.length_cons] at hsum; omega
      have hstep := step_payload o len f b h4 hlt (by omega) hlen
      have hrun : runReader ⟨o, len, f⟩ (b :: bs)
          = ((runReader ⟨o + 1, len, fun i => if i = o then b else f i⟩ bs).1,
             Outcome.wouldBlock ::
               (runReader ⟨o + 1, len, fun i => if i = o then b else f i⟩ bs).2) := by
        simp [runReader, hstep]
      obtain ⟨IH1, IH2, IH3, IH4, IH5, IH6⟩ :=
        ih (o + 1) len (fun i => if i = o then b else f i) (by omega) hlen
          (by simp only [List.length_cons] at hsum; omega) hbs
      obtain ⟨n, hn⟩ : ∃ n, bs.length = n + 1 := ⟨bs.length - 1, by omega⟩
      refine ⟨?_, by simp [hrun, IH2], by simp [hrun, IH3], ?_, ?_, ?_⟩
      · simp only [hrun, IH1, hn, List.length_cons, Nat.add_sub_cancel,
          List.replicate_succ, List.cons_append]
      · intro i hi
        simp only [hrun]
        rw [IH4 i (by omega)]
        exact if_neg (by omega)
      · intro i hio hi
        by_cases hieq : i = o
        · subst hieq
          simp only [hrun]
          rw [IH4 i (by omega)]
          simp
        · simp only [hrun]
          rw [IH5 i (by omega) hi, show i - o = i - (o + 1) + 1 by omega,
            List.getD_cons_succ]
      · intro i hi
        simp only [hrun]
        rw [IH6 i hi]
        exact if_neg (by omega)

/-- Feeding a complete well-formed frame (magic pair, zero high length byte,
declared length between 1 and 28, that many body bytes) from any cursor-0
state: every byte but the last reports would-block, the last completes the
frame, and the buffer then holds exactly the frame's bytes. -/
theorem runReader_frame (len0 : Nat) (f : Nat → Nat) (L : Nat) (body : List Nat)
    (hL1 : 1 ≤ L) (hL : L ≤ 28) (hlen : body.length = L) :
    (runReader ⟨0, len0, f⟩ ([0x42, 0x4d, 0, L] ++ body)).2
        = List.replicate (L + 3) Outcome.wouldBlock ++ [Outcome.ok] ∧
    (runReader ⟨0, len0, f⟩ ([0x42, 0x4d, 0, L] ++ body)).1.byte_offset = 0 ∧
    (runReader ⟨0, len0, f⟩ ([0x42, 0x4d, 0, L] ++ body)).1.length = L ∧
    (∀ i, i < L + 4 → (runReader ⟨0, len0, f⟩ ([0x42, 0x4d, 0, L] ++ body)).1.data i
        = ([0x42, 0x4d, 0, L] ++ body).getD i 0) := by
  have h1 := step_magic1 len0 f
  have h2 := step_magic2 len0 (fun i => if i = 0 then 0x42 else f i)
  have h3 := step_lenhigh len0
    (fun i => if i = 1 then 0x4d else if i = 0 then 0x42 else f i)
  have h4 := step_length_ok len0
    (fun i => if i = 2 then 0 else if i = 1 then 0x4d else if i = 0 then 0x42 else f i)
    L (by omega)
  have hrun : runReader ⟨0, len0, f⟩ ([0x42, 0x4d, 0, L] ++ body)
      = ((runReader ⟨4, L, fun i => if i = 3 then L else if i = 2 then 0 else
            if i = 1 then 0x4d else if i = 0 then 0x42 else f i⟩ body).1,
         Outcome.wouldBlock :: Outcome.wouldBlock :: Outcome.wouldBlock ::
           Outcome.wouldBlock ::
           (runReader ⟨4, L, fun i => if i = 3 then L else if i = 2 then 0 else
              if i = 1 then 0x4d else if i = 0 then 0x42 else f i⟩ body).2) := by
    simp [runReader, h1, h2, h3, h4]
  obtain ⟨B1, B2, B3, B4, B5, B6⟩ :=
    runReader_body body 4 L
      (fun i => if i = 3 then L else if i = 2 then 0 else
        if i = 1 then 0x4d else if i = 0 then 0x42 else f i)
      (by omega) hL (by omega) (by
        intro h
        rw [h] at hlen
        simp at hlen
        omega)
  obtain ⟨m, hm⟩ : ∃ m, L = m + 1 := ⟨L - 1, by omega⟩
  refine ⟨?_, by rw [hrun]; exact B2, by rw [hrun]; exact B3, ?_⟩
  · rw [hrun]
    dsimp only
    rw [B1, hlen, hm, show m + 1 + 3 = 4 + m by omega, List.replicate_add,
      show List.replicate 4 Outcome.wouldBlock
        = [Outcome.wouldBlock, Outcome.wouldBlock, Outcome.wouldBlock,
           Outcome.wouldBlock] from rfl]
    simp
  · intro i hi
    rcases Nat.lt_or_ge i 4 with h | h
    · rw [hrun]
      dsimp only
      rw [B4 i h]
      interval_cases i <;> rfl
    · obtain ⟨j, rfl⟩ : ∃ j, i = j + 4 := ⟨i - 4, by omega⟩
      rw [hrun]
      dsimp only
      rw [B5 (j + 4) (by omega) (by omega), Nat.add_sub_cancel]
      rfl

/-- Prepending bytes that each miss the first magic byte: every one is
stored at index 0 and discarded with a would-block outcome, leaving a
cursor-0 state whose buffer differs from the original at most at index 0. -/
theorem runReader_noise (noise : List Nat) :
    ∀ (len0 : Nat) (f : Nat → Nat) (rest : List Nat), (∀ b ∈ noise, b ≠ 0x42) →
    ∃ f2 : Nat → Nat,
      runReader ⟨0, len0, f⟩ (noise ++ rest)
        = ((runReader ⟨0, len0, f2⟩ rest).1,
           List.replicate noise.length Outcome.wouldBlock
             ++ (runReader ⟨0, len0, f2⟩ rest).2) := by
  induction noise with
  | nil => intro len0 f rest _; exact ⟨f, by simp⟩
  | cons b bs ih =>
    intro len0 f rest hn
    have hb : b ≠ 0x42 := hn b (by simp)
    have hstep := step_scan_miss len0 f b hb
    obtain ⟨f2, hf2⟩ := ih len0 (fun i => if i = 0 then b else f i) rest
      (fun x hx => hn x (by simp [hx]))
    refine ⟨f2, ?_⟩
    rw [List.cons_append]
    have hrun : runReader ⟨0, len0, f⟩ (b :: (bs ++ rest))
        = ((runReader ⟨0, len0, fun i => if i = 0 then b else f i⟩ (bs ++ rest)).1,
           Outcome.wouldBlock ::
             (runReader ⟨0, len0, fun i => if i = 0 then b else f i⟩ (bs ++ rest)).2) := by
      simp [runReader, hstep]
    rw [hrun, hf2]
    simp [List.replicate_succ]

/-- C2: on the 33-byte stream declaring length 29 every call up to the 32nd
reports would-block and the 33rd call writes self.data[32], out of bounds of
the [u8; 32] buffer — the panic the claim says cannot happen.  Declared
lengths 29 through 32 pass the length guard (which only rejects lengths
above 32) yet need length + 4 > 32 buffer slots. -/
theorem overlong_frame_panics :
    (runReader SensorReader.default ([0x42, 0x4d, 0, 0x1d] ++ List.replicate 29 0)).2
      = List.replicate 32 Outcome.wouldBlock ++ [Outcome.panicked] := by decide

/-- C3 counterexample: the 34-byte stream the claim describes — magic pair,
zero high length byte, declared length 0x1c, 28 payload bytes carrying the
twelve field values big-endian (padded with zeros), and a trailing big-endian
checksum 0x013B equal to the sum of the 30 bytes before the final payload
pair — reaches completion on its 32nd byte, not its 34th: the reader
consumes declared length + 4 = 32 bytes per frame, so the last two bytes are
scanned as garbage and validate_data then fails. -/
theorem measurement_frame_completes_early :
    (runReader SensorReader.default
        [0x42, 0x4d, 0x00, 0x1c, 0,10, 0,20, 0,30, 0,11, 0,21, 0,31,
         0,1, 0,2, 0,3, 0,4, 0,5, 0,6, 0,0,0,0, 1,59]).2
      = List.replicate 31 Outcome.wouldBlock
          ++ [Outcome.ok, Outcome.wouldBlock, Outcome.wouldBlock] ∧
    (runReader SensorReader.default
        [0x42, 0x4d, 0x00, 0x1c, 0,10, 0,20, 0,30, 0,11, 0,21, 0,31,
         0,1, 0,2, 0,3, 0,4, 0,5, 0,6, 0,0,0,0, 1,59]).1.validate_data = some false := by
  decide

/-- C3 (amended): the 32-byte frame 42 4D 00 1C, the twelve field values
(10, 20, 30, 11, 21, 31, 1, 2, 3, 4, 5, 6) big-endian at offsets 4..27, two
reserved zero bytes, and the big-endian checksum 0x013B of the 30 preceding
bytes completes exactly on the 32nd byte; validate_data then holds and
from_raw reproduces exactly those twelve values. -/
theorem measurement_frame_scenario :
    (runReader SensorReader.default
        [0x42, 0x4d, 0x00, 0x1c, 0,10, 0,20, 0,30, 0,11, 0,21, 0,31,
         0,1, 0,2, 0,3, 0,4, 0,5, 0,6, 0,0, 1,59]).2
      = List.replicate 31 Outcome.wouldBlock ++ [Outcome.ok] ∧
    (runReader SensorReader.default
        [0x42, 0x4d, 0x00, 0x1c, 0,10, 0,20, 0,30, 0,11, 0,21, 0,31,
         0,1, 0,2, 0,3, 0,4, 0,5, 0,6, 0,0, 1,59]).1.validate_data = some true ∧
    SensorData.from_raw (runReader SensorReader.default
        [0x42, 0x4d, 0x00, 0x1c, 0,10, 0,20, 0,30, 0,11, 0,21, 0,31,
         0,1, 0,2, 0,3, 0,4, 0,5, 0,6, 0,0, 1,59]).1.data
      = ⟨10, 20, 30, 11, 21, 31, 1, 2, 3, 4, 5, 6⟩ := by
  decide

/-- C4: a byte above 32 consumed at reader offset 3 is stored as the declared
length at index 3, the cursor resets to 0 with a would-block outcome, and no
other buffer index changes — in particular nothing is written at or past
index 32, and the frame's earlier bytes sat at indices 0..2. -/
theorem oversize_declared_length_resets (r : SensorReader) (b : Nat)
    (h3 : r.byte_offset = 3) (hb : 32 < b) :
    (r.step b).2 = Outcome.wouldBlock ∧
    (r.step b).1.byte_offset = 0 ∧
    (r.step b).1.length = b ∧
    (r.step b).1.data 3 = b ∧
    (∀ i, i ≠ 3 → (r.step b).1.data i = r.data i) := by
  obtain ⟨o, len, f⟩ := r
  obtain rfl : o = 3 := h3
  rw [step_length_oversize len f b hb]
  exact ⟨rfl, rfl, rfl, by simp, fun i hi => by simp [hi]⟩

/-- Witness for C4 at the concrete reader state (offset 3, zeroed buffer)
and declared length 33. -/
theorem oversize_declared_length_resets_witness :
    ((⟨3, 0, fun _ => 0⟩ : SensorReader).step 33).2 = Outcome.wouldBlock ∧
    ((⟨3, 0, fun _ => 0⟩ : SensorReader).step 33).1.byte_offset = 0 ∧
    ((⟨3, 0, fun _ => 0⟩ : SensorReader).step 33).1.length = 33 ∧
    ((⟨3, 0, fun _ => 0⟩ : SensorReader).step 33).1.data 3 = 33 ∧
    ((⟨3, 0, fun _ => 0⟩ : SensorReader).step 33).1.data 32 = 0 :=
  ⟨(oversize_declared_length_resets ⟨3, 0, fun _ => 0⟩ 33 rfl (by decide)).1,
   (oversize_declared_length_resets ⟨3, 0, fun _ => 0⟩ 33 rfl (by decide)).2.1,
   (oversize_declared_length_resets ⟨3, 0, fun _ => 0⟩ 33 rfl (by decide)).2.2.1,
   (oversize_declared_length_resets ⟨3, 0, fun _ => 0⟩ 33 rfl (by decide)).2.2.2.1,
   ((oversize_declared_length_resets ⟨3, 0, fun _ => 0⟩ 33 rfl
      (by decide)).2.2.2.2 32 (by decide)).trans rfl⟩

/-- C5 counterexample: the two-byte prefix 42 00 does not match the expected
framing (0x00 is not the second magic byte), and the frame that follows is
well-formed (fed alone it completes with a valid checksum, see the C3
scenario theorem), yet after this prefix not one of the 34 calls completes:
the rogue 0x42 starts a bogus frame, the byte after the mismatch is consumed
as a length high byte, and the real frame's magic pair is swallowed during
resynchronization. -/
theorem partial_magic_noise_loses_frame :
    (runReader SensorReader.default
        ([0x42, 0x00] ++
          [0x42, 0x4d, 0x00, 0x1c, 0,10, 0,20, 0,30, 0,11, 0,21, 0,31,
           0,1, 0,2, 0,3, 0,4, 0,5, 0,6, 0,0, 1,59])).2
      = List.replicate 34 Outcome.wouldBlock := by decide

/-- C5 (amended): after any prefix of bytes that each differ from the first
magic byte 0x42, a well-formed frame with declared length between 1 and 28
completes exactly on its final byte — would-block on every earlier call —
and the buffer then holds exactly the frame's bytes, with cursor 0 and the
declared length stored. -/
theorem resync_after_noise (noise : List Nat) (L : Nat) (body : List Nat)
    (hn : ∀ b ∈ noise, b ≠ 0x42) (hL1 : 1 ≤ L) (hL : L ≤ 28)
    (hlen : body.length = L) :
    (runReader SensorReader.default (noise ++ ([0x42, 0x4d, 0, L] ++ body))).2
        = List.replicate (noise.length + (L + 3)) Outcome.wouldBlock
            ++ [Outcome.ok] ∧
    (runReader SensorReader.default
        (noise ++ ([0x42, 0x4d, 0, L] ++ body))).1.byte_offset = 0 ∧
    (runReader SensorReader.default
        (noise ++ ([0x42, 0x4d, 0, L] ++ body))).1.length = L ∧
    (∀ i, i < L + 4 →
      (runReader SensorReader.default (noise ++ ([0x42, 0x4d, 0, L] ++ body))).1.data i
        = ([0x42, 0x4d, 0, L] ++ body).getD i 0) := by
  obtain ⟨f2, hf2⟩ :=
    runReader_noise noise 0 (fun _ => 0) ([0x42, 0x4d, 0, L] ++ body) hn
  obtain ⟨F1, F2, F3, F4⟩ := runReader_frame 0 f2 L body hL1 hL hlen
  have hd : SensorReader.default = (⟨0, 0, fun _ => 0⟩ : SensorReader) := rfl
  rw [hd, hf2]
  refine ⟨?_, F2, F3, fun i hi => F4 i hi⟩
  dsimp only
  rw [F1]
  simp [List.replicate_add, List.append_assoc]

/-- Witness for C5 at the concrete noise prefix [7, 200] and the length-2
frame 42 4D 00 02 09 0D. -/
theorem resync_after_noise_witness :
    (runReader SensorReader.default ([7, 200] ++ ([0x42, 0x4d, 0, 2] ++ [9, 13]))).2
        = List.replicate 7 Outcome.wouldBlock ++ [Outcome.ok] ∧
    (runReader SensorReader.default
        ([7, 200] ++ ([0x42, 0x4d, 0, 2] ++ [9, 13]))).1.byte_offset = 0 ∧
    (runReader SensorReader.default
        ([7, 200] ++ ([0x42, 0x4d, 0, 2] ++ [9, 13]))).1.length = 2 ∧
    (∀ i, i < 6 →
      (runReader SensorReader.default ([7, 200] ++ ([0x42, 0x4d, 0, 2] ++ [9, 13]))).1.data i
        = ([0x42, 0x4d, 0, 2] ++ [9, 13]).getD i 0) :=
  resync_after_noise [7, 200] 2 [9, 13] (by decide) (by decide) (by decide) rfl

/-- C1: from a fresh CommandWriter for any real command and 16-bit payload,
driving write until the cursor reaches 7 emits exactly the seven bytes
magic-1, magic-2, command code, payload high, payload low, checksum high,
checksum low, with the payload big-endian and the trailing pair the
big-endian 16-bit wrap-around sum of the first five bytes, and the frame
decodes back to the same command and payload. -/
theorem command_frame_emission (command : Command) (data : Nat)
    (hc : command ≠ Command.none) (hd : data < 65536) :
    (CommandWriter.driveAll 7 (CommandWriter.new command data) []).2
        = commandFrameBytes command data ∧
    (CommandWriter.driveAll 7 (CommandWriter.new command data) []).1.state = 7 ∧
    decodeCommandFrame (commandFrameBytes command data) = some (command, data) := by
  have hdl : data / 256 % 256 = data / 256 := Nat.mod_eq_of_lt (by omega)
  cases command with
  | none => exact absurd rfl hc
  | readPassive =>
    refine ⟨?_, ?_, ?_⟩
    · simp [CommandWriter.driveAll, CommandWriter.write, CommandWriter.new,
        commandFrameBytes, Command.code, hdl]
      try omega
    · simp [CommandWriter.driveAll, CommandWriter.write, CommandWriter.new]
    · simp [decodeCommandFrame, decodeCommandCode, commandFrameBytes,
        Command.code, Nat.div_add_mod']
  | setMode =>
    refine ⟨?_, ?_, ?_⟩
    · simp [CommandWriter.driveAll, CommandWriter.write, CommandWriter.new,
        commandFrameBytes, Command.code, hdl]
      try omega
    · simp [CommandWriter.driveAll, CommandWriter.write, CommandWriter.new]
    · simp [decodeCommandFrame, decodeCommandCode, commandFrameBytes,
        Command.code, Nat.div_add_mod']
  | setSleep =>
    refine ⟨?_, ?_, ?_⟩
    · simp [CommandWriter.driveAll, CommandWriter.write, CommandWriter.new,
        commandFrameBytes, Command.code, hdl]
      try omega
    · simp [CommandWriter.driveAll, CommandWriter.write, CommandWriter.new]
    · simp [decodeCommandFrame, decodeCommandCode, commandFrameBytes,
        Command.code, Nat.div_add_mod']

/-- Witness for C1 at SetMode with payload 1 (the into_active command). -/
theorem command_frame_emission_witness :
    (CommandWriter.driveAll 7 (CommandWriter.new Command.setMode 1) []).2
        = commandFrameBytes Command.setMode 1 ∧
    (CommandWriter.driveAll 7 (CommandWriter.new Command.setMode 1) []).1.state = 7 ∧
    decodeCommandFrame (commandFrameBytes Command.setMode 1)
        = some (Command.setMode, 1) :=
  command_frame_emission Command.setMode 1 (by decide) (by decide)

/-- C10: a write call on a fully sent frame (cursor 7) emits nothing, leaves
the writer unchanged and reports Ok, so retries of send_command after the
frame is out never re-emit command bytes. -/
theorem write_after_complete_is_noop (w : CommandWriter) (out : List Nat)
    (h : w.state = 7) : w.write out = (w, out, Outcome.ok) := by
  simp [CommandWriter.write, h]

/-- Witness for C10 at the writer state a completed SetMode frame leaves
behind. -/
theorem write_after_complete_is_noop_witness :
    CommandWriter.write ⟨Command.setMode, 0, 1, 7, 1, 113⟩ []
      = (⟨Command.setMode, 0, 1, 7, 1, 113⟩, [], Outcome.ok) :=
  write_after_complete_is_noop ⟨Command.setMode, 0, 1, 7, 1, 113⟩ [] rfl

/-- CommandWriter::write never changes the stored command. -/
theorem write_command_eq (w : CommandWriter) (out : List Nat) :
    (w.write out).1.command = w.command := by
  unfold CommandWriter.write
  by_cases h7 : w.state < 7 <;> simp [h7] <;> split <;> rfl

/-- SensorReader::fill_data never writes to the serial transport. -/
theorem fill_data_output (r : SensorReader) (s : Serial) :
    (r.fill_data s).2.1.output = s.output := by
  unfold SensorReader.fill_data
  split
  · rfl
  · split <;> rfl

/-- Whenever send_command reports Ok, the command slot has been reset to the
None sentinel. -/
theorem send_ok_slot_none (p : Pms700X) (s : Serial) (c : Command) (dt : Nat)
    (ea : Bool) :
    (p.send_command s c dt ea).2.2 = Outcome.ok →
    (p.send_command s c dt ea).1.command_writer.command = Command.none := by
  simp only [Pms700X.send_command]
  split
  · split
    · split
      · intro _; rfl
      · intro h; exact absurd h (by assumption)
    · intro _; rfl
  · intro h; exact absurd h (by assumption)

/-- C9: while a command is in flight (the stored command is not the None
sentinel) send_command ignores its command and payload arguments — the call
is literally the same function of the state for any two argument pairs — and
it reports Ok exactly when the cycle completes and the slot is reset to
None; otherwise the previously started frame stays in flight. -/
theorem send_command_ignores_args_in_flight (p : Pms700X) (s : Serial)
    (c1 c2 : Command) (d1 d2 : Nat) (ea : Bool)
    (h : p.command_writer.command ≠ Command.none) :
    p.send_command s c1 d1 ea = p.send_command s c2 d2 ea ∧
    ((p.send_command s c1 d1 ea).2.2 = Outcome.ok ↔
      (p.send_command s c1 d1 ea).1.command_writer.command = Command.none) := by
  refine ⟨?_, ?_, ?_⟩
  · simp only [Pms700X.send_command, if_neg h]
  · exact send_ok_slot_none p s c1 d1 ea
  · simp only [Pms700X.send_command, if_neg h]
    split
    · split
      · split
        · intro _; rfl
        · intro hh
          simp only [write_command_eq] at hh
          exact absurd hh h
      · intro _; rfl
    · intro hh
      simp only [write_command_eq] at hh
      exact absurd hh h

/-- Witness for C9: with a ReadPassive frame in flight (cursor 3), sending
SetMode 7 and sending SetSleep 0 are the same call. -/
theorem send_command_ignores_args_in_flight_witness :
    Pms700X.send_command ⟨⟨Command.readPassive, 0, 0, 3, 0, 226⟩, SensorReader.default⟩
        ⟨[], []⟩ Command.setMode 7 true
      = Pms700X.send_command ⟨⟨Command.readPassive, 0, 0, 3, 0, 226⟩, SensorReader.default⟩
          ⟨[], []⟩ Command.setSleep 0 true ∧
    ((Pms700X.send_command ⟨⟨Command.readPassive, 0, 0, 3, 0, 226⟩, SensorReader.default⟩
          ⟨[], []⟩ Command.setMode 7 true).2.2 = Outcome.ok ↔
      (Pms700X.send_command ⟨⟨Command.readPassive, 0, 0, 3, 0, 226⟩, SensorReader.default⟩
          ⟨[], []⟩ Command.setMode 7 true).1.command_writer.command = Command.none) :=
  send_command_ignores_args_in_flight
    ⟨⟨Command.readPassive, 0, 0, 3, 0, 226⟩, SensorReader.default⟩ ⟨[], []⟩
    Command.setMode Command.setSleep 7 0 true (by decide)

/-- C7 counterexample: from a fresh driver, blocking on Active-mode read with
the sensor stream 42 4D 00 1D followed by 29 zero bytes ends in a panic —
the 33rd fill_data call indexes data[32] — a call that is neither a decoded
measurement, nor the not-ready marker, nor a transport error, refuting the
claim that every call without a transport error returns one of the first
two. -/
theorem active_read_can_panic :
    (loopRead Pms700X.read_active 40 pmsInit
        ⟨([0x42, 0x4d, 0, 0x1d] ++ List.replicate 29 0).map ReadEvent.byte, []⟩).2.2
      = ReadOutcome.panicked := by decide

/-- C7 (amended): Active-mode read never touches the command writer and
never commits command bytes; it returns a decoded measurement only on a call
whose fill_data step completes a frame that validate_data accepts, and the
measurement is decoded from that buffer; a completed frame that
validate_data rejects yields the not-ready marker; a transport error is
reported exactly when fill_data reports one; and the only other outcome is a
panic, arising exactly when fill_data itself panics (the out-of-bounds store
of C2) or when a completed frame's validate_data call indexes out of bounds
(the stale-length wrap, exhibited by stale_length_wrap_panics below). -/
theorem active_read_gate (p : Pms700X) (s : Serial) :
    (p.read_active s).1.command_writer = p.command_writer ∧
    (p.read_active s).2.1.output = s.output ∧
    (∀ d, (p.read_active s).2.2 = ReadOutcome.ok d →
      (p.reader.fill_data s).2.2 = Outcome.ok ∧
      (p.read_active s).1.reader.validate_data = some true ∧
      d = SensorData.from_raw ((p.read_active s).1.reader.data)) ∧
    ((p.reader.fill_data s).2.2 = Outcome.ok →
      (p.read_active s).1.reader.validate_data = some false →
      (p.read_active s).2.2 = ReadOutcome.wouldBlock) ∧
    (∀ e, (p.read_active s).2.2 = ReadOutcome.err e ↔
      (p.reader.fill_data s).2.2 = Outcome.err e) ∧
    ((p.read_active s).2.2 = ReadOutcome.panicked ↔
      ((p.reader.fill_data s).2.2 = Outcome.panicked ∨
        ((p.reader.fill_data s).2.2 = Outcome.ok ∧
          (p.read_active s).1.reader.validate_data = Option.none))) := by
  refine ⟨?_, ?_, ?_, ?_, ?_, ?_⟩
  · simp only [Pms700X.read_active]
    split
    · split <;> rfl
    · rfl
    · rfl
    · rfl
  · simp only [Pms700X.read_active]
    split
    · split <;> exact fill_data_output p.reader s
    · exact fill_data_output p.reader s
    · exact fill_data_output p.reader s
    · exact fill_data_output p.reader s
  · intro d
    simp only [Pms700X.read_active]
    split
    · split <;> intro hd <;> simp_all
    · intro hd; simp_all
    · intro hd; simp_all
    · intro hd; simp_all
  · simp only [Pms700X.read_active]
    split
    · split
      · intro h1 h2; simp_all
      · intro h1 h2; rfl
      · intro h1 h2; simp_all
    · intro h1 h2; simp_all
    · intro h1 h2; simp_all
    · intro h1 h2; simp_all
  · intro e
    simp only [Pms700X.read_active]
    split
    · split <;> simp_all
    · simp_all
    · simp_all
    · simp_all
  · simp only [Pms700X.read_active]
    split
    · split <;> simp_all
    · simp_all
    · simp_all
    · simp_all

/-- A stale oversize declared length makes the u8 comparison length + 3 wrap
and spuriously complete a frame: on the stream 42 4D 00 FD 42 99 the fourth
byte stores length 253 (and resets the cursor), the fifth restarts a frame,
and at the offset-1 mismatch on the sixth the catch-all arm computes
(253 + 3) mod 256 = 0 <= 1, so fill_data reports a completed frame; the
Active-mode read call then panics inside validate_data, which indexes
data[255] on the 32-byte buffer — a panic outside the declared-length 29..32
class of C2. -/
theorem stale_length_wrap_panics :
    (loopRead Pms700X.read_active 10 pmsInit
        ⟨([0x42, 0x4d, 0x00, 0xfd, 0x42, 0x99]).map ReadEvent.byte, []⟩).2.2
      = ReadOutcome.panicked := by decide

/-- C8 counterexample: a complete frame whose checksum bytes are FF FF (the
correct sum would be 0x00F9) is pushed through a blocking Passive-mode read
from a fresh driver.  The read returns the decoded measurement even though
the buffered frame fails validate_data: the send/receive cycle only waits
for frame completion and never runs a checksum check, so the passive path
can return a frame that validate_data rejects. -/
theorem passive_read_skips_validation :
    (loopRead Pms700X.read_passive 45 pmsInit
        ⟨([0x42, 0x4d, 0, 0x1c, 0,1, 0,2, 0,3, 0,4, 0,5, 0,6, 0,7, 0,8, 0,9,
           0,10, 0,11, 0,12, 0,0, 0xff, 0xff]).map ReadEvent.byte, []⟩).2.2
      = ReadOutcome.ok ⟨1, 2, 3, 4, 5, 6, 7, 8, 9, 10, 11, 12⟩ ∧
    (loopRead Pms700X.read_passive 45 pmsInit
        ⟨([0x42, 0x4d, 0, 0x1c, 0,1, 0,2, 0,3, 0,4, 0,5, 0,6, 0,7, 0,8, 0,9,
           0,10, 0,11, 0,12, 0,0, 0xff, 0xff]).map ReadEvent.byte, []⟩).1.reader.validate_data
      = some false := by decide

/-- C8 (amended): whenever Passive-mode read returns a measurement, that
measurement is decoded directly from the reader buffer of the send/receive
cycle just completed, and the command slot has been reset to None; no
checksum validation happens anywhere on this path, so the buffered frame may
fail validate_data (see the counterexample). -/
theorem passive_read_decodes_buffer (p : Pms700X) (s : Serial) (d : SensorData)
    (h : (p.read_passive s).2.2 = ReadOutcome.ok d) :
    d = SensorData.from_raw (p.read_passive s).1.reader.data ∧
    (p.read_passive s).1.command_writer.command = Command.none := by
  rcases hsc : (p.send_command s Command.readPassive 0 true).2.2 with _ | _ | e | _
  · simp only [Pms700X.read_passive, hsc, ReadOutcome.ok.injEq] at h ⊢
    exact ⟨h.symm, send_ok_slot_none p s Command.readPassive 0 true hsc⟩
  · simp [Pms700X.read_passive, hsc] at h
  · simp [Pms700X.read_passive, hsc] at h
  · simp [Pms700X.read_passive, hsc] at h

/-- Witness for C8 at a driver whose ReadPassive frame is fully written
(cursor 7) and whose reader needs one byte to complete a zeroed frame. -/
theorem passive_read_decodes_buffer_witness :
    (⟨0, 0, 0, 0, 0, 0, 0, 0, 0, 0, 0, 0⟩ : SensorData)
        = SensorData.from_raw
            (Pms700X.read_passive ⟨⟨Command.readPassive, 0, 0, 7, 1, 113⟩,
              ⟨31, 28, fun _ => 0⟩⟩ ⟨[ReadEvent.byte 0], []⟩).1.reader.data ∧
    (Pms700X.read_passive ⟨⟨Command.readPassive, 0, 0, 7, 1, 113⟩,
        ⟨31, 28, fun _ => 0⟩⟩ ⟨[ReadEvent.byte 0], []⟩).1.command_writer.command
      = Command.none :=
  passive_read_decodes_buffer
    ⟨⟨Command.readPassive, 0, 0, 7, 1, 113⟩, ⟨31, 28, fun _ => 0⟩⟩
    ⟨[ReadEvent.byte 0], []⟩ ⟨0, 0, 0, 0, 0, 0, 0, 0, 0, 0, 0, 0⟩ (by decide)

/-- Shape of validate_data at the measurement length 28: the checksum
indexes land at 30 and 31, in bounds, and the take cap is invisible. -/
theorem validate_data_at28 (r : SensorReader) (h : r.length = 28) :
    r.validate_data
      = some (r.data 30 * 256 + r.data 31 == sumData r.data 30) := by
  simp only [SensorReader.validate_data, h]
  norm_num

/-- C6: for every SensorData (twelve u16 fields), the well-formed response
frame carrying it, fed byte-by-byte into a fresh reader, completes exactly on
its 32nd byte, passes validate_data, and decodes through from_raw back to an
equal SensorData — the full encode, collect, validate, decode round trip. -/
theorem sensordata_roundtrip (d : SensorData) (_hu : u16Sensor d) :
    (runReader SensorReader.default (encodeFrame d)).2
        = List.replicate 31 Outcome.wouldBlock ++ [Outcome.ok] ∧
    (runReader SensorReader.default (encodeFrame d)).1.validate_data = some true ∧
    SensorData.from_raw (runReader SensorReader.default (encodeFrame d)).1.data
      = d := by
  obtain ⟨a1, a2, a3, a4, a5, a6, a7, a8, a9, a10, a11, a12⟩ := d
  have hlen : (frameBody (SensorData.mk a1 a2 a3 a4 a5 a6 a7 a8 a9 a10 a11 a12)).length = 28 := by
    simp [frameBody, fieldBytes]
  obtain ⟨F1, F2, F3, F4⟩ :=
    runReader_frame 0 (fun _ => 0) 28 (frameBody (SensorData.mk a1 a2 a3 a4 a5 a6 a7 a8 a9 a10 a11 a12))
      (by omega) (by omega) hlen
  simp only [encodeFrame, SensorReader.default]
  set R := (runReader ⟨0, 0, fun _ => 0⟩
    ([0x42, 0x4d, 0, 28] ++ frameBody (SensorData.mk a1 a2 a3 a4 a5 a6 a7 a8 a9 a10 a11 a12))).1 with hR
  have hD0 : R.data 0 = 0x42 := by rw [F4 0 (by norm_num)]; rfl
  have hD1 : R.data 1 = 0x4d := by rw [F4 1 (by norm_num)]; rfl
  have hD2 : R.data 2 = 0 := by rw [F4 2 (by norm_num)]; rfl
  have hD3 : R.data 3 = 28 := by rw [F4 3 (by norm_num)]; rfl
  have hD4 : R.data 4 = a1 / 256 := by rw [F4 4 (by norm_num)]; rfl
  have hD5 : R.data 5 = a1 % 256 := by rw [F4 5 (by norm_num)]; rfl
  have hD6 : R.data 6 = a2 / 256 := by rw [F4 6 (by norm_num)]; rfl
  have hD7 : R.data 7 = a2 % 256 := by rw [F4 7 (by norm_num)]; rfl
  have hD8 : R.data 8 = a3 / 256 := by rw [F4 8 (by norm_num)]; rfl
  have hD9 : R.data 9 = a3 % 256 := by rw [F4 9 (by norm_num)]; rfl
  have hD10 : R.data 10 = a4 / 256 := by rw [F4 10 (by norm_num)]; rfl
  have hD11 : R.data 11 = a4 % 256 := by rw [F4 11 (by norm_num)]; rfl
  have hD12 : R.data 12 = a5 / 256 := by rw [F4 12 (by norm_num)]; rfl
  have hD13 : R.data 13 = a5 % 256 := by rw [F4 13 (by norm_num)]; rfl
  have hD14 : R.data 14 = a6 / 256 := by rw [F4 14 (by norm_num)]; rfl
  have hD15 : R.data 15 = a6 % 256 := by rw [F4 15 (by norm_num)]; rfl
  have hD16 : R.data 16 = a7 / 256 := by rw [F4 16 (by norm_num)]; rfl
  have hD17 : R.data 17 = a7 % 256 := by rw [F4 17 (by norm_num)]; rfl
  have hD18 : R.data 18 = a8 / 256 := by rw [F4 18 (by norm_num)]; rfl
  have hD19 : R.data 19 = a8 % 256 := by rw [F4 19 (by norm_num)]; rfl
  have hD20 : R.data 20 = a9 / 256 := by rw [F4 20 (by norm_num)]; rfl
  have hD21 : R.data 21 = a9 % 256 := by rw [F4 21 (by norm_num)]; rfl
  have hD22 : R.data 22 = a10 / 256 := by rw [F4 22 (by norm_num)]; rfl
  have hD23 : R.data 23 = a10 % 256 := by rw [F4 23 (by norm_num)]; rfl
  have hD24 : R.data 24 = a11 / 256 := by rw [F4 24 (by norm_num)]; rfl
  have hD25 : R.data 25 = a11 % 256 := by rw [F4 25 (by norm_num)]; rfl
  have hD26 : R.data 26 = a12 / 256 := by rw [F4 26 (by norm_num)]; rfl
  have hD27 : R.data 27 = a12 % 256 := by rw [F4 27 (by norm_num)]; rfl
  have hD28 : R.data 28 = 0 := by rw [F4 28 (by norm_num)]; rfl
  have hD29 : R.data 29 = 0 := by rw [F4 29 (by norm_num)]; rfl
  have hD30 : R.data 30 = frameChecksum (SensorData.mk a1 a2 a3 a4 a5 a6 a7 a8 a9 a10 a11 a12) / 256 := by rw [F4 30 (by norm_num)]; rfl
  have hD31 : R.data 31 = frameChecksum (SensorData.mk a1 a2 a3 a4 a5 a6 a7 a8 a9 a10 a11 a12) % 256 := by rw [F4 31 (by norm_num)]; rfl
  refine ⟨F1, ?_, ?_⟩
  · rw [validate_data_at28 _ F3, hD30, hD31, Nat.div_add_mod']
    simp only [sumData, Option.some.injEq]
    rw [hD29, hD28, hD27, hD26, hD25, hD24, hD23, hD22, hD21, hD20, hD19, hD18, hD17, hD16, hD15, hD14, hD13, hD12, hD11, hD10, hD9, hD8, hD7, hD6, hD5, hD4, hD3, hD2, hD1, hD0]
    simp only [beq_iff_eq, frameChecksum, fieldBytes, List.sum_cons, List.sum_nil]
    omega
  · simp only [SensorData.from_raw]
    rw [hD4, hD5, hD6, hD7, hD8, hD9, hD10, hD11, hD12, hD13, hD14, hD15, hD16, hD17, hD18, hD19, hD20, hD21, hD22, hD23, hD24, hD25, hD26, hD27]
    simp only [SensorData.mk.injEq]
    refine ⟨?_, ?_, ?_, ?_, ?_, ?_, ?_, ?_, ?_, ?_, ?_, ?_⟩ <;> omega

/-- Witness for C6 at the measurement record of the C3 scenario. -/
theorem sensordata_roundtrip_witness :
    (runReader SensorReader.default
        (encodeFrame ⟨10, 20, 30, 11, 21, 31, 1, 2, 3, 4, 5, 6⟩)).2
        = List.replicate 31 Outcome.wouldBlock ++ [Outcome.ok] ∧
    (runReader SensorReader.default
        (encodeFrame ⟨10, 20, 30, 11, 21, 31, 1, 2, 3, 4, 5, 6⟩)).1.validate_data
      = some true ∧
    SensorData.from_raw (runReader SensorReader.default
        (encodeFrame ⟨10, 20, 30, 11, 21, 31, 1, 2, 3, 4, 5, 6⟩)).1.data
      = ⟨10, 20, 30, 11, 21, 31, 1, 2, 3, 4, 5, 6⟩ :=
  sensordata_roundtrip ⟨10, 20, 30, 11, 21, 31, 1, 2, 3, 4, 5, 6⟩ (by decide)
